import Mathlib

/- Verification of the operator-algebra engine of pycsou (src/pycsou/abc/operator.py)
   against its natural-language specification.

   The embedding follows the source file closely.  Python classes become the
   inductive type OpCls; the capability vocabulary of Property._property_list
   becomes PName; the class-level behaviour of the combinators (which Python
   class the result is an instance of, and which ValueError paths fire) is
   modelled by executable functions returning Except String.  A second,
   value-level model (PyOp below) captures the bound method implementations
   where a claim is about the computed arrays. -/

namespace Pycsou

/- Capability vocabulary: operator.py, Property._property_list (lines 47-59).
   The two entries lipschitzAttr and diffLipschitzAttr stand for the strings
   written with a leading underscore in the source.  They are instance
   attributes assigned in the constructors, never class attributes, so the
   reverse lookup Property.properties (which intersects dir(cls) with this
   vocabulary) can never return them; the properties function below therefore
   never includes them. -/
inductive PName where
  | apply
  | jacobian
  | gradient
  | adjoint
  | prox
  | single_valued
  | lipschitzAttr
  | diffLipschitzAttr
  deriving DecidableEq

/- The seven base operator classes of operator.py plus UnitOp, the only
   refinement of LinOp that the claims mention (ProxFunc.__mul__ tests
   isinstance(other, UnitOp)). -/
inductive OpCls where
  | map
  | diffMap
  | func
  | diffFunc
  | proxFunc
  | linOp
  | linFunc
  | unitOp
  deriving DecidableEq

/- Property.properties (operator.py lines 61-87): dir(cls) intersected with the
   vocabulary.  The sets below are read off the class definitions: Apply
   contributes apply, Differential contributes jacobian, SingledValued
   contributes single_valued, Gradient contributes jacobian and gradient,
   Adjoint contributes adjoint, Proximal contributes prox.  They agree with the
   table printed in the docstring of Property.properties (lines 77-83).
   UnitOp inherits exactly the LinOp set. -/
def properties : OpCls → Finset PName
  | .map => {.apply}
  | .diffMap => {.apply, .jacobian}
  | .func => {.apply, .single_valued}
  | .diffFunc => {.apply, .single_valued, .jacobian, .gradient}
  | .proxFunc => {.apply, .single_valued, .prox}
  | .linOp => {.apply, .jacobian, .adjoint}
  | .linFunc => {.apply, .single_valued, .jacobian, .gradient, .adjoint}
  | .unitOp => {.apply, .jacobian, .adjoint}

/- The loop over _base_operators in __add__ and __mul__ (lines 194-196 and
   323-325): the first base class whose canonical property set equals the
   given set.  _base_operators is a frozenset, so its iteration order is
   unspecified; the seven canonical sets are pairwise distinct, hence when a
   match exists the outcome does not depend on the order.  When no match
   exists the Python loop silently leaves the last iterated class in scope;
   we return none (that situation is unreachable for the property sets
   produced by the combinators on base-kind operands). -/
def resolveKind (s : Finset PName) : Option OpCls :=
  if s = properties .map then some .map
  else if s = properties .diffMap then some .diffMap
  else if s = properties .func then some .func
  else if s = properties .diffFunc then some .diffFunc
  else if s = properties .proxFunc then some .proxFunc
  else if s = properties .linOp then some .linOp
  else if s = properties .linFunc then some .linFunc
  else none

/- Shapes (codomain size, domain size); dom = none is the domain-agnostic
   wildcard written None in the source. -/
structure Shape where
  codom : Nat
  dom : Option Nat
  deriving DecidableEq

/- Modelled from the spec: pycsou.util.infer_sum_shape is imported by
   operator.py (line 189) but its module is not under src/.  Spec section 4.2:
   codomains must be range-broadcastable (equal or either 1), domains must be
   identical unless at least one is agnostic; the output shape is the larger
   codomain paired with the concrete domain size if any, else agnostic. -/
def inferSumShape (a b : Shape) : Except String Shape :=
  if (a.codom = b.codom ∨ a.codom = 1 ∨ b.codom = 1)
      ∧ (a.dom = b.dom ∨ a.dom = none ∨ b.dom = none) then
    .ok ⟨max a.codom b.codom, if a.dom = none then b.dom else a.dom⟩
  else .error "Cannot sum two maps with inconsistent shapes"

/- Modelled from the spec: pycsou.util.infer_composition_shape is imported by
   operator.py (line 316) but its module is not under src/.  Spec section 4.2:
   the left domain must equal the right codomain unless the left domain is
   agnostic; output is (left codomain, right domain). -/
def inferCompShape (a b : Shape) : Except String Shape :=
  if a.dom = none ∨ a.dom = some b.codom then
    .ok ⟨a.codom, b.dom⟩
  else .error "Cannot compose two maps with inconsistent shapes"

/- Classes whose constructor goes through Func.__init__ (lines 686-693),
   which raises ValueError when the codomain size exceeds 1. -/
def funcLike : OpCls → Bool
  | .func | .diffFunc | .proxFunc | .linFunc => true
  | _ => false

/- Map.specialize (operator.py lines 653-670), class-level outcome.
   Order of the checks as in the source: the early return when cast_to is the
   objects own class; the guard raising ValueError when the objects property
   set is a proper superset of the targets; then the constructor call
   cast_to(self.shape), which raises ValueError inside Func.__init__ exactly
   when the target is a functional class and the codomain EXCEEDS 1 (the
   source test is shape[0] > 1, line 691), and inside SquareOp.__init__
   (reached for UnitOp) when the shape is not square. -/
def specializeCls (c : OpCls) (sh : Shape) (t : OpCls) : Except String OpCls :=
  if t = c then .ok c
  else if properties t ⊂ properties c then .error "Cannot specialize"
  else if funcLike t ∧ 1 < sh.codom then .error "Functionals must be of the form (1,n)"
  else if t = .unitOp ∧ sh.dom ≠ some sh.codom then .error "Inconsistent shape for square operator"
  else .ok t

/- The class that self._squeeze(out=...) receives for each class, read off the
   method-resolution order of the source: Map.squeeze passes Func (line 637),
   DiffMap.squeeze passes DiffFunc (line 678), LinOp.squeeze passes LinFunc
   (line 735).  Func, DiffFunc and ProxFunc define no squeeze of their own and
   inherit Map.squeeze; LinFunc and UnitOp inherit LinOp.squeeze. -/
def squeezeTarget : OpCls → OpCls
  | .map => .func
  | .diffMap => .diffFunc
  | .func => .func
  | .diffFunc => .func
  | .proxFunc => .func
  | .linOp => .linFunc
  | .linFunc => .linFunc
  | .unitOp => .linFunc

/- Map._squeeze (lines 640-648): specialize to the single-valued counterpart
   when the codomain size is 1, otherwise return the object unchanged. -/
def squeezeCls (c : OpCls) (sh : Shape) : Except String OpCls :=
  if sh.codom = 1 then specializeCls c sh (squeezeTarget c) else .ok c

/- Property.__add__ (lines 186-211), class-level outcome.  shared_props is the
   intersection of the operands property sets with prox discarded; the
   resolved class Op is looked up before jacobian and single_valued are
   discarded (those discards only affect which methods are bound, not the
   class of out_op); the result is out_op.squeeze(). -/
def propertyAddCls (ca : OpCls) (sa : Shape) (cb : OpCls) (sb : Shape) :
    Except String (OpCls × Shape) :=
  match inferSumShape sa sb with
  | .error e => .error e
  | .ok sh =>
    match resolveKind ((properties ca ∩ properties cb).erase .prox) with
    | none => .error "no base operator matches the shared property set"
    | some op =>
      match squeezeCls op sh with
      | .error e => .error e
      | .ok c => .ok (c, sh)

/- ProxFunc.__add__ (lines 700-707), class-level outcome.  It first runs
   Property.__add__, then, when the other operand is a LinFunc, re-specializes
   the sum to ProxFunc and installs the shifted prox; in every case it returns
   f.squeeze(). -/
def proxAddCls (ca : OpCls) (sa : Shape) (cb : OpCls) (sb : Shape) :
    Except String (OpCls × Shape) :=
  match propertyAddCls ca sa cb sb with
  | .error e => .error e
  | .ok (c, sh) =>
    if cb = .linFunc then
      match specializeCls c sh .proxFunc with
      | .error e => .error e
      | .ok c2 =>
        match squeezeCls c2 sh with
        | .error e => .error e
        | .ok c3 => .ok (c3, sh)
    else
      match squeezeCls c sh with
      | .error e => .error e
      | .ok c3 => .ok (c3, sh)

/- Dispatch of the + operator.  Python calls type(left).__add__; only ProxFunc
   and LinFunc override it.  LinFunc.__add__ (lines 869-872) is
   ProxFunc.__add__(other, self): operands swapped, so the special LinFunc
   branch always fires there. -/
def addCls (ca : OpCls) (sa : Shape) (cb : OpCls) (sb : Shape) :
    Except String (OpCls × Shape) :=
  if ca = .linFunc then proxAddCls cb sb ca sa
  else if ca = .proxFunc then proxAddCls ca sa cb sb
  else propertyAddCls ca sa cb sb

/- Property.__mul__ (lines 313-358), class-level outcome.  shared_props is the
   intersection minus prox; when the left factor is scalar-valued and jacobian
   is shared, gradient and single_valued are granted (lines 321-322); the
   class is resolved, and the result is out_op.squeeze(). -/
def propertyMulCls (ca : OpCls) (sa : Shape) (cb : OpCls) (sb : Shape) :
    Except String (OpCls × Shape) :=
  match inferCompShape sa sb with
  | .error e => .error e
  | .ok sh =>
    let s0 := (properties ca ∩ properties cb).erase .prox
    let s1 := if sa.codom = 1 ∧ .jacobian ∈ s0 then insert .gradient (insert .single_valued s0) else s0
    match resolveKind s1 with
    | none => .error "no base operator matches the shared property set"
    | some op =>
      match squeezeCls op sh with
      | .error e => .error e
      | .ok c => .ok (c, sh)

/- ProxFunc.__mul__ (lines 709-722), class-level outcome.  After
   Property.__mul__, when the right factor is a UnitOp the source evaluates
   f.specialize(cast_to=ProxFunc) but DISCARDS the returned object (line 715:
   the result of specialize is not assigned), then installs a prox attribute
   on f and returns f.squeeze(); the class of f is therefore unchanged.  A
   raise inside the discarded specialize call would still propagate, so it is
   kept in the model.  The HomothetyOp branch (line 717) concerns a class from
   pycsou.linop.base, which is not under src/, and is not modelled. -/
def proxMulCls (ca : OpCls) (sa : Shape) (cb : OpCls) (sb : Shape) :
    Except String (OpCls × Shape) :=
  match propertyMulCls ca sa cb sb with
  | .error e => .error e
  | .ok (c, sh) =>
    if cb = .unitOp then
      match specializeCls c sh .proxFunc with
      | .error e => .error e
      | .ok _ =>
        match squeezeCls c sh with
        | .error e => .error e
        | .ok c3 => .ok (c3, sh)
    else
      match squeezeCls c sh with
      | .error e => .error e
      | .ok c3 => .ok (c3, sh)

/- Dispatch of the * operator on two operators: only ProxFunc overrides
   __mul__. -/
def mulCls (ca : OpCls) (sa : Shape) (cb : OpCls) (sb : Shape) :
    Except String (OpCls × Shape) :=
  if ca = .proxFunc then proxMulCls ca sa cb sb
  else propertyMulCls ca sa cb sb

/- Property.argshift (lines 488-561), class-level outcome.  The shift vector
   is modelled by its length.  The output class is DiffFunc for a LinFunc
   input, DiffMap for any other LinOp input, otherwise the input class
   (lines 540-545); the result is out_op.squeeze() (line 561). -/
def argshiftCls (c : OpCls) (sh : Shape) (vsize : Nat) : Except String (OpCls × Shape) :=
  if sh.dom = none ∨ sh.dom = some vsize then
    let osh : Shape := ⟨sh.codom, some vsize⟩
    let oc : OpCls :=
      if c = .linFunc then .diffFunc
      else if c = .linOp ∨ c = .unitOp then .diffMap
      else c
    match squeezeCls oc osh with
    | .error e => .error e
    | .ok c2 => .ok (c2, osh)
  else .error "Invalid lag shape"

/- The addition closure table published in the docstring of Property.__add__
   (operator.py lines 158-174), completed by the symmetry the docstring
   appeals to.  Only the seven base kinds appear in the table. -/
def addTableDoc : OpCls → OpCls → Option OpCls
  | .unitOp, _ | _, .unitOp => none
  | .map, _ | _, .map => some .map
  | .diffMap, .func | .func, .diffMap => some .map
  | .diffMap, .proxFunc | .proxFunc, .diffMap => some .map
  | .diffMap, _ | _, .diffMap => some .diffMap
  | .func, .linOp | .linOp, .func => some .map
  | .func, _ | _, .func => some .func
  | .diffFunc, .proxFunc | .proxFunc, .diffFunc => some .func
  | .diffFunc, .linOp | .linOp, .diffFunc => some .diffMap
  | .diffFunc, _ | _, .diffFunc => some .diffFunc
  | .proxFunc, .linOp | .linOp, .proxFunc => some .map
  | .proxFunc, .linFunc | .linFunc, .proxFunc => some .proxFunc
  | .proxFunc, .proxFunc => some .func
  | .linOp, _ | _, .linOp => some .linOp
  | .linFunc, .linFunc => some .linFunc

/- The composition closure table published in the docstring of
   Property.__mul__ (operator.py lines 254-270); rows are the left factor. -/
def compTableDoc : OpCls → OpCls → Option OpCls
  | .unitOp, _ | _, .unitOp => none
  | .map, _ => some .map
  | .diffMap, .map | .diffMap, .func | .diffMap, .proxFunc => some .map
  | .diffMap, _ => some .diffMap
  | .func, _ => some .func
  | .diffFunc, .map | .diffFunc, .func | .diffFunc, .proxFunc => some .func
  | .diffFunc, _ => some .diffFunc
  | .proxFunc, _ => some .func
  | .linOp, .map | .linOp, .func | .linOp, .proxFunc => some .map
  | .linOp, .diffMap | .linOp, .diffFunc => some .diffMap
  | .linOp, _ => some .linOp
  | .linFunc, .map => some .linFunc
  | .linFunc, .diffMap | .linFunc, .diffFunc => some .diffFunc
  | .linFunc, .func | .linFunc, .proxFunc => some .func
  | .linFunc, _ => some .linFunc

/- ------------------------------------------------------------------ -/
/- Value-level model: bound method implementations.                    -/
/- ------------------------------------------------------------------ -/

/- Arrays are finite rational vectors.  The numeric-precision decorator
   pycrt.enforce_precision wrapped around the combinator methods only casts
   dtypes (an external collaborator per the spec) and is not modelled. -/

/- A Python value that a bound capability method can return: an array, a
   linear operator (observed through its apply and adjoint actions), or a
   raised exception.  Calling an attribute that is not a method of the right
   arity (for example single_valued, which takes no array argument, or a
   missing attribute) is modelled as an exception value. -/
inductive PyVal where
  | arr : List ℚ → PyVal
  | lin : (List ℚ → List ℚ) → (List ℚ → List ℚ) → PyVal
  | exc : String → PyVal

/- An operator instance: its class, shape, the table of bound one-array-
   argument methods (apply, jacobian, gradient, adjoint; a missing entry means
   the attribute only resolves to the abstract class method, which raises),
   the bound prox (two arguments), and the two scalar attributes.
   dlip is none for the classes whose constructor chain never assigns
   _diff_lipschitz (Map, Func, DiffFunc, ProxFunc: note DiffFunc.__init__ runs
   Func.__init__ then Map.__init__ and never DiffMap.__init__). -/
structure PyOp where
  cls : OpCls
  shape : Shape
  tbl : PName → Option (List ℚ → PyVal)
  proxM : Option (List ℚ → ℚ → PyVal)
  lip : WithTop ℚ
  dlip : Option (WithTop ℚ)

/- Constructor defaults: Map.__init__ sets _lipschitz to infinity (line 623);
   DiffMap.__init__ sets _diff_lipschitz to infinity (line 676); LinOp.__init__
   overwrites it with 0 (line 733); LinFunc runs LinOp.__init__ too. -/
def initDlip : OpCls → Option (WithTop ℚ)
  | .diffMap => some ⊤
  | .linOp | .linFunc | .unitOp => some 0
  | _ => none

/- getattr(self, prop) followed by a one-argument call. -/
def getattr1 (A : PyOp) (p : PName) : List ℚ → PyVal :=
  (A.tbl p).getD (fun _ => .exc "NotImplementedError")

/- The + of two method results inside a composite method.  Both operands are
   arrays in every reachable use of this model (adding two jacobian results
   would re-enter LinOp.__add__ in the source; no claim exercises that). -/
def pyAdd : PyVal → PyVal → PyVal
  | .arr a, .arr b => .arr (List.zipWith (· + ·) a b)
  | _, _ => .exc "unsupported operands"

/- Feed an array result into the next bound method, propagating exceptions. -/
def pvBindArr : PyVal → (List ℚ → PyVal) → PyVal
  | .arr a, f => f a
  | .exc e, _ => .exc e
  | .lin _ _, _ => .exc "TypeError"

/- One-hot rational vector, used to evaluate a jacobian on the identity. -/
def oneHot (n i : Nat) : List ℚ :=
  (List.range n).map (fun j => if j = i then 1 else 0)

/- The gradient synthesized inside Map.specialize (line 667):
   self.jacobian(x).asarray().reshape(-1); asarray applies the operator to the
   identity matrix of the domain size (LinOp.asarray, lines 785-788), so the
   flattened result is the concatenation of the images of the basis vectors. -/
def jacGradSynth (A : PyOp) : List ℚ → PyVal := fun x =>
  match getattr1 A .jacobian x, A.shape.dom with
  | .lin ap _, some n => .arr (((List.range n).map (fun i => ap (oneHot n i))).flatten)
  | _, _ => .exc "cannot build asarray"

/- Map.specialize (lines 653-670), value level.  Same guard structure as
   specializeCls.  The copy loop iterates over the properties of the objects
   class: a jacobian entry is turned into a synthesized gradient when the
   target has single_valued (and jacobian itself is then not copied); every
   other property is copied as the already-bound method.  When the source
   class owns both jacobian and gradient and the target has single_valued,
   the Python result depends on the set iteration order (the synthesized and
   the copied gradient overwrite each other); no claim reaches that case, and
   the model lets the synthesized gradient win.  The fresh target instance
   starts from constructor defaults, so _lipschitz is reset to infinity
   (the scalar attributes are not in the property vocabulary and are not
   copied by the loop). -/
def specializeV (A : PyOp) (t : OpCls) : Except String PyOp :=
  if t = A.cls then .ok A
  else if properties t ⊂ properties A.cls then .error "Cannot specialize"
  else if funcLike t ∧ 1 < A.shape.codom then .error "Functionals must be of the form (1,n)"
  else if t = .unitOp ∧ A.shape.dom ≠ some A.shape.codom then .error "Inconsistent shape for square operator"
  else .ok
    { cls := t
      shape := A.shape
      tbl := fun p =>
        if p = .gradient ∧ .jacobian ∈ properties A.cls ∧ .single_valued ∈ properties t then
          some (jacGradSynth A)
        else if p ∈ properties A.cls ∧ ¬(p = .jacobian ∧ .single_valued ∈ properties t) then
          A.tbl p
        else none
      proxM := if .prox ∈ properties A.cls then A.proxM else none
      lip := ⊤
      dlip := initDlip t }

/- Map._squeeze (lines 640-648), value level. -/
def squeezeV (A : PyOp) : Except String PyOp :=
  if A.shape.codom = 1 then specializeV A (squeezeTarget A.cls) else .ok A

/- The shared property set of Property.__add__ after discarding prox
   (line 193). -/
def sharedAdd (ca cb : OpCls) : Finset PName :=
  (properties ca ∩ properties cb).erase .prox

/- The discards applied after class resolution in Property.__add__
   (lines 197-199): jacobian when the resolved class derives it (LinOp,
   DiffFunc, LinFunc), then single_valued. -/
def postDiscard (op : OpCls) (s : Finset PName) : Finset PName :=
  ((if op = .linOp ∨ op = .diffFunc ∨ op = .linFunc then s.erase .jacobian else s).erase
    .single_valued)

/- The binding loop of Property.__add__ (lines 201-210) followed by the final
   squeeze.  The parameter order is the iteration order of the Python set
   shared_props, which is unspecified; the model validates that it enumerates
   the computed set.  Two faithful details:
   First, the branch for the scalar attributes tests the misspelled string
   written as underscore-l-i-s-p-chitz in the source, and neither scalar name
   can be in shared_props anyway (they are instance attributes, invisible to
   dir(cls)), so the scalar attributes of out_op keep their constructor
   defaults.
   Second, composite_method is a closure over the loop variable prop, which
   Python binds late: by the time any bound method runs, prop holds the LAST
   value of the iteration, so every bound method computes the composite of
   that last property. -/
def addFinish (A B : PyOp) (op : OpCls) (sh : Shape) (s2 : Finset PName)
    (order : List PName) : Except String PyOp :=
  if order.Nodup ∧ order.toFinset = s2 then
    squeezeV
      { cls := op
        shape := sh
        tbl := fun p =>
          if p ∈ order then
            some (fun x =>
              pyAdd (getattr1 A (order.getLastD .apply) x)
                (getattr1 B (order.getLastD .apply) x))
          else none
        proxM := none
        lip := ⊤
        dlip := initDlip op }
  else .error "model: order must enumerate the bound property set"

/- Property.__add__ (lines 186-211), value level. -/
def addV (A B : PyOp) (order : List PName) : Except String PyOp :=
  match inferSumShape A.shape B.shape with
  | .error e => .error e
  | .ok sh =>
    match resolveKind (sharedAdd A.cls B.cls) with
    | none => .error "no base operator matches the shared property set"
    | some op => addFinish A B op sh (postDiscard op (sharedAdd A.cls B.cls)) order

/- The composite gradient of Property.__mul__ (lines 342-348):
   other.jacobian(arr).adjoint(self.gradient(other.apply(arr))). -/
def compositeGradient (A B : PyOp) : List ℚ → PyVal := fun x =>
  pvBindArr (getattr1 B .apply x) (fun bx =>
    pvBindArr (getattr1 A .gradient bx) (fun g =>
      match getattr1 B .jacobian x with
      | .lin _ adj => .arr (adj g)
      | .exc e => .exc e
      | .arr _ => .exc "TypeError"))

/- The composite jacobian of Property.__mul__ (lines 349-355):
   self.jacobian(other.apply(arr)) * other.jacobian(arr).  The source builds
   the product through LinOp.__mul__; its observable apply and adjoint are the
   chained actions recorded here. -/
def compositeJacobian (A B : PyOp) : List ℚ → PyVal := fun x =>
  pvBindArr (getattr1 B .apply x) (fun bx =>
    match getattr1 A .jacobian bx, getattr1 B .jacobian x with
    | .lin ap1 adj1, .lin ap2 adj2 => .lin (fun v => ap1 (ap2 v)) (fun v => adj2 (adj1 v))
    | .exc e, _ => .exc e
    | _, .exc e => .exc e
    | _, _ => .exc "TypeError")

/- Property.__mul__ (lines 313-358), value level.  Each branch of the binding
   loop builds its own closure over self and other only (no late-bound loop
   variable here, unlike __add__).  The branches for the two scalar attributes
   are dead: those names are never in shared_props, so the product keeps the
   constructor defaults (_lipschitz infinity). -/
def mulV (A B : PyOp) : Except String PyOp :=
  match inferCompShape A.shape B.shape with
  | .error e => .error e
  | .ok sh =>
    let s0 := sharedAdd A.cls B.cls
    let s1 := if A.shape.codom = 1 ∧ .jacobian ∈ s0 then
        insert .gradient (insert .single_valued s0) else s0
    match resolveKind s1 with
    | none => .error "no base operator matches the shared property set"
    | some op =>
      let s2 := postDiscard op s1
      squeezeV
        { cls := op
          shape := sh
          tbl := fun p =>
            if p ∈ s2 then
              match p with
              | .apply => some (fun x => pvBindArr (getattr1 B .apply x) (getattr1 A .apply))
              | .gradient => some (compositeGradient A B)
              | .jacobian => some (compositeJacobian A B)
              | .adjoint => some (fun x => pvBindArr (getattr1 A .adjoint x) (getattr1 B .adjoint))
              | _ => none
            else none
          proxM := none
          lip := ⊤
          dlip := initDlip op }

/- ProxFunc.__mul__ (lines 709-722), value level.  The UnitOp branch evaluates
   f.specialize(cast_to=ProxFunc) without using the result (only a raised
   error would propagate), then installs the composed prox
   other.adjoint(self.prox(other.apply(arr), tau)) on f itself, and returns
   f.squeeze().  The HomothetyOp branch concerns a class not under src/. -/
def proxMulV (A B : PyOp) : Except String PyOp :=
  match mulV A B with
  | .error e => .error e
  | .ok f =>
    if B.cls = .unitOp then
      match specializeV f .proxFunc with
      | .error e => .error e
      | .ok _ =>
        squeezeV
          { f with
            proxM := some (fun x τ =>
              pvBindArr (getattr1 B .apply x) (fun bx =>
                match A.proxM with
                | some pf => pvBindArr (pf bx τ) (getattr1 B .adjoint)
                | none => .exc "AttributeError")) }
    else squeezeV f

/- Dispatch of * on two operator values: only ProxFunc overrides __mul__. -/
def mulOpV (A B : PyOp) : Except String PyOp :=
  if A.cls = .proxFunc then proxMulV A B else mulV A B

/- LinOp.jacobian (operator.py lines 738-739): the method body is
   return self, for every argument. -/
def jacobianLinOp (A : PyOp) (_arr : List ℚ) : PyOp := A

/- ------------------------------------------------------------------ -/
/- Instance-identity model for the purity and power claims.            -/
/- ------------------------------------------------------------------ -/

/- Object identity is modelled by a numeric tag: each constructor call
   allocates a fresh tag, so two operators are the same Python object exactly
   when their tags coincide. -/
structure OpI where
  cls : OpCls
  shape : Shape
  ident : Nat
  deriving DecidableEq

/- A * B as in Property.__mul__ / ProxFunc.__mul__: the result is a freshly
   constructed instance, whose tag is the supplied fresh tag. -/
def mulI (fresh : Nat) (A B : OpI) : Except String OpI :=
  match mulCls A.cls A.shape B.cls B.shape with
  | .error e => .error e
  | .ok (c, sh) => .ok ⟨c, sh, fresh⟩

/- Modelled from the spec: IdentityOperator lives in pycsou.linop.base, which
   is not under src/; spec section 4.3 says the zeroth power is the identity
   operator of matching shape (a norm-preserving linear operator). -/
def identityOpI (fresh : Nat) (sh : Shape) : OpI := ⟨.unitOp, sh, fresh⟩

/- The loop of Property.__pow__ (lines 394-403): exp_map starts as self and
   is replaced by self.__mul__(exp_map) once per iteration of
   range(1, power); iteration k uses the fresh tag base+k. -/
def powIter (base : Nat) (A : OpI) : Nat → Except String OpI
  | 0 => .ok A
  | k + 1 =>
    match powIter base A k with
    | .error e => .error e
    | .ok e => mulI (base + k + 1) A e

/- Property.__pow__ (lines 378-405) for a natural power. -/
def powI (base : Nat) (A : OpI) (n : Nat) : Except String OpI :=
  if n = 0 then .ok (identityOpI base A.shape) else powIter base A (n - 1)

/- A + B as in Property.__add__ / ProxFunc.__add__ / LinFunc.__add__: whether
   the final squeeze returns the freshly constructed out_op itself or a
   further specialized copy of it, the returned object is a new allocation,
   never one of the operands; its tag is the supplied fresh tag.  The
   combinators only ever setattr on that fresh object (the operand records
   are never written to). -/
def addI (fresh : Nat) (A B : OpI) : Except String OpI :=
  match addCls A.cls A.shape B.cls B.shape with
  | .error e => .error e
  | .ok (c, sh) => .ok ⟨c, sh, fresh⟩

/- Modelled from the spec: HomothetyOp lives in pycsou.linop.base, which is
   not under src/; the spec glossary describes the homothety as a uniform
   scalar-scaling linear operator, and section 4.3 calls it unitary, so it is
   modelled as a UnitOp-class instance of square shape (dim, dim).  The
   scaling constant does not enter the class, shape or identity model. -/
def homothetyI (fresh : Nat) (dim : Nat) : OpI := ⟨.unitOp, ⟨dim, some dim⟩, fresh⟩

/- The scalar branch of Property.__mul__ (lines 308-312): build a fresh
   homothety of dimension self.shape[0] and return hmap.__mul__(self).
   hTag tags the homothety allocation, outTag the product. -/
def scalarMulI (hTag outTag : Nat) (_s : ℚ) (A : OpI) : Except String OpI :=
  mulI outTag (homothetyI hTag A.shape.codom) A

/- Property.__neg__ (lines 407-413): alias for self.__mul__(-1). -/
def negI (hTag outTag : Nat) (A : OpI) : Except String OpI :=
  scalarMulI hTag outTag (-1) A

/- Property.__truediv__ (lines 436-445): alias for self.__mul__(1 / scalar)
   for a real divisor. -/
def divI (hTag outTag : Nat) (s : ℚ) (A : OpI) : Except String OpI :=
  scalarMulI hTag outTag (1 / s) A

/- Property.argshift (lines 488-561) at the identity level: the returned
   object is the freshly constructed out_op (or its squeeze-specialized
   copy), tagged fresh. -/
def argshiftI (fresh : Nat) (A : OpI) (vsize : Nat) : Except String OpI :=
  match argshiftCls A.cls A.shape vsize with
  | .error e => .error e
  | .ok (c, sh) => .ok ⟨c, sh, fresh⟩

/- Property.argscale (lines 447-486): build a fresh homothety of dimension
   self.shape[1] and return self.__mul__(hmap).  A domain-agnostic operand
   hands None to the HomothetyOp constructor, whose module is not under
   src/; that case is left out of the model. -/
def argscaleI (hTag outTag : Nat) (A : OpI) : Except String OpI :=
  match A.shape.dom with
  | some n => mulI outTag A (homothetyI hTag n)
  | none => .error "model: domain-agnostic argscale depends on the HomothetyOp module"

/- ------------------------------------------------------------------ -/
/- Concrete operator instances used to evaluate the code.              -/
/- ------------------------------------------------------------------ -/

/- Reading a method result out of a possibly-raised combinator result. -/
def tblAt (e : Except String PyOp) (p : PName) (x : List ℚ) : PyVal :=
  match e with
  | .ok r => getattr1 r p x
  | .error _ => .exc "raised"

/- Reading the bound prox out of a possibly-raised combinator result. -/
def proxAt (e : Except String PyOp) (x : List ℚ) (τ : ℚ) : PyVal :=
  match e with
  | .ok r => ((r.proxM).getD (fun _ _ => .exc "AttributeError")) x τ
  | .error _ => .exc "raised"

/- A Map instance of shape (2,2) acting as the identity, with the Lipschitz
   estimate manually set to 2 (resp. 3 for B3), as a user of the library
   would after construction. -/
def A3 : PyOp :=
  { cls := .map
    shape := ⟨2, some 2⟩
    tbl := fun p => if p = .apply then some (fun x => .arr x) else none
    proxM := none
    lip := (2 : ℚ)
    dlip := none }

def B3 : PyOp :=
  { cls := .map
    shape := ⟨2, some 2⟩
    tbl := fun p => if p = .apply then some (fun x => .arr x) else none
    proxM := none
    lip := (3 : ℚ)
    dlip := none }

/- The action and transpose action of the matrix with rows (0 1) and (0 0). -/
def nilpAct : List ℚ → List ℚ := fun x => [x.getD 1 0, 0]
def nilpAdj : List ℚ → List ℚ := fun x => [0, x.getD 0 0]

/- A LinOp instance of shape (2,2) for that matrix: apply and adjoint differ,
   and jacobian returns the operator itself (LinOp.jacobian), observed here
   through its two actions. -/
def A4 : PyOp :=
  { cls := .linOp
    shape := ⟨2, some 2⟩
    tbl := fun p =>
      match p with
      | .apply => some (fun x => .arr (nilpAct x))
      | .adjoint => some (fun x => .arr (nilpAdj x))
      | .jacobian => some (fun _ => .lin nilpAct nilpAdj)
      | _ => none
    proxM := none
    lip := ⊤
    dlip := some 0 }

/- The post-discard bound property set of A4 + A4: the LinOp intersection
   with jacobian and single_valued discarded, leaving apply and adjoint. -/
def S4 : Finset PName := postDiscard .linOp (sharedAdd .linOp .linOp)

/- A ProxFunc instance of shape (1,2); its prox scales the input by tau
   (any concrete bound prox serves to evaluate the combinator). -/
def P7 : PyOp :=
  { cls := .proxFunc
    shape := ⟨1, some 2⟩
    tbl := fun p => if p = .apply then some (fun x => .arr [x.getD 0 0 + x.getD 1 0]) else none
    proxM := some (fun x τ => .arr (x.map (· * τ)))
    lip := ⊤
    dlip := none }

/- The coordinate-swap action on rational pairs. -/
def swapAct : List ℚ → List ℚ := fun x => [x.getD 1 0, x.getD 0 0]

/- A UnitOp instance of shape (2,2): the coordinate swap, which is its own
   adjoint-inverse (norm preserving); UnitOp.__init__ sets _lipschitz to 1. -/
def U7 : PyOp :=
  { cls := .unitOp
    shape := ⟨2, some 2⟩
    tbl := fun p =>
      match p with
      | .apply => some (fun x => .arr (swapAct x))
      | .adjoint => some (fun x => .arr (swapAct x))
      | .jacobian => some (fun _ => .lin swapAct swapAct)
      | _ => none
    proxM := none
    lip := (1 : ℚ)
    dlip := some 0 }

/- A square Map instance with identity tag 0, for the power claim. -/
def A9 : OpI := ⟨.map, ⟨2, some 2⟩, 0⟩

/- ------------------------------------------------------------------ -/
/- Shared helper lemmas.                                               -/
/- ------------------------------------------------------------------ -/

lemma squeezeV_codom_two (A : PyOp) (h : A.shape.codom = 2) : squeezeV A = Except.ok A := by
  unfold squeezeV
  rw [h]
  simp

/- ------------------------------------------------------------------ -/
/- The claims.                                                         -/
/- ------------------------------------------------------------------ -/

/-- C1: kind-resolution totality fails on the code.  The published addition
table (docstring of the add method) gives DiffFunc for DiffFunc plus DiffFunc,
but the combinator raises ValueError there (the final squeeze specializes a
DiffFunc instance down to Func, which the specialize guard rejects), so the
grid is not total.  The published composition table gives LinFunc for LinFunc
composed with Map, but the code produces a Func.  A cell on which the code and
the table agree (Map plus Map) is included as a sanity check. -/
theorem c1_kind_resolution_diverges :
    addCls .diffFunc ⟨1, some 3⟩ .diffFunc ⟨1, some 3⟩ = Except.error "Cannot specialize"
    ∧ addTableDoc .diffFunc .diffFunc = some .diffFunc
    ∧ mulCls .linFunc ⟨1, some 3⟩ .map ⟨3, some 5⟩ = Except.ok (.func, ⟨1, some 5⟩)
    ∧ compTableDoc .linFunc .map = some .linFunc
    ∧ addCls .map ⟨2, some 3⟩ .map ⟨2, some 3⟩ = Except.ok (.map, ⟨2, some 3⟩)
    ∧ addTableDoc .map .map = some .map :=
  ⟨rfl, rfl, rfl, rfl, rfl, rfl⟩

/-- C2: the sum of a ProxFunc and a LinFunc of shape (1,2) does not produce a
ProxFunc with the shifted prox; ProxFunc.__add__ raises ValueError at its
final squeeze (squeezing the freshly specialized ProxFunc tries to specialize
it down to Func, which the guard rejects), although the published table
promises a ProxFunc result. -/
theorem c2_proxfunc_add_linfunc_raises :
    addCls .proxFunc ⟨1, some 2⟩ .linFunc ⟨1, some 2⟩ = Except.error "Cannot specialize"
    ∧ addTableDoc .proxFunc .linFunc = some .proxFunc :=
  ⟨rfl, rfl⟩

/-- C3: the sum of two Map instances whose Lipschitz estimates are 2 and 3
keeps the constructor default (infinity) instead of the documented value 5:
the scalar attributes are never members of the shared property set (they are
instance attributes, invisible to dir(cls)), so the assignment branch of the
binding loop is dead. -/
theorem c3_sum_lipschitz_kept_default :
    (addV A3 B3 [PName.apply]).toOption.map PyOp.lip = some ⊤
    ∧ A3.lip + B3.lip = ((5 : ℚ) : WithTop ℚ)
    ∧ ((5 : ℚ) : WithTop ℚ) ≠ (⊤ : WithTop ℚ) := by
  refine ⟨rfl, ?_, ?_⟩
  · show ((2 : ℚ) : WithTop ℚ) + ((3 : ℚ) : WithTop ℚ) = ((5 : ℚ) : WithTop ℚ)
    norm_cast
  · simp

/-- C4: for the sum of the rank-one LinOp A4 (matrix rows (0 1) and (0 0))
with itself, every admissible iteration order of the binding loop gives the
apply and adjoint methods the SAME composite implementation (the loop variable
of the closure is bound late), whereas the claim requires the apply binding to
return the apply sum, here the zero vector at input (1 0), and the adjoint
binding to return the adjoint sum, here (0 2); those two targets differ, so
at least one retained capability is wrongly bound under every order. -/
theorem c4_sum_bindings_collapse :
    (∀ order : List PName,
        tblAt (addV A4 A4 order) PName.apply [1, 0]
          = tblAt (addV A4 A4 order) PName.adjoint [1, 0])
    ∧ pyAdd (getattr1 A4 PName.apply [1, 0]) (getattr1 A4 PName.apply [1, 0])
        = PyVal.arr [0, 0]
    ∧ pyAdd (getattr1 A4 PName.adjoint [1, 0]) (getattr1 A4 PName.adjoint [1, 0])
        = PyVal.arr [0, 2]
    ∧ PyVal.arr ([0, 0] : List ℚ) ≠ PyVal.arr [0, 2] := by
  refine ⟨?_, ?_, ?_, ?_⟩
  · intro order
    have he : addV A4 A4 order = addFinish A4 A4 .linOp ⟨2, some 2⟩ S4 order := rfl
    rw [he]
    unfold addFinish
    split
    · next h =>
      have hap : PName.apply ∈ order := by
        rw [← List.mem_toFinset, h.2]
        decide
      have had : PName.adjoint ∈ order := by
        rw [← List.mem_toFinset, h.2]
        decide
      rw [squeezeV_codom_two _ rfl]
      simp only [tblAt, getattr1]
      rw [if_pos hap, if_pos had]
    · rfl
  · show PyVal.arr (List.zipWith (· + ·) (nilpAct [1, 0]) (nilpAct [1, 0])) = PyVal.arr [0, 0]
    norm_num [nilpAct]
  · show PyVal.arr (List.zipWith (· + ·) (nilpAdj [1, 0]) (nilpAdj [1, 0])) = PyVal.arr [0, 2]
    norm_num [nilpAdj]
  · intro h
    have h2 : ([0, 0] : List ℚ) = [0, 2] := by injection h
    norm_num at h2

/-- C5: squeeze is neither total nor idempotent on the code.  Squeezing a
DiffMap of shape (1,3) yields a DiffFunc, but squeezing that DiffFunc (or any
ProxFunc) raises ValueError, because the inherited Map.squeeze targets Func
and the specialize guard rejects dropping capabilities. -/
theorem c5_squeeze_raises_on_functional_kinds :
    squeezeCls .diffMap ⟨1, some 3⟩ = Except.ok .diffFunc
    ∧ squeezeCls .diffFunc ⟨1, some 3⟩ = Except.error "Cannot specialize"
    ∧ squeezeCls .proxFunc ⟨1, some 2⟩ = Except.error "Cannot specialize" :=
  ⟨rfl, rfl, rfl⟩

/-- C6 counterexample: specializing a ProxFunc instance to DiffFunc does NOT
raise although the ProxFunc property set is not contained in the DiffFunc
property set (prox is missing there); the guard in the source only fires on a
proper superset, so the claimed iff is false on incomparable property sets. -/
theorem c6_incomparable_no_raise :
    specializeCls .proxFunc ⟨1, some 2⟩ .diffFunc = Except.ok OpCls.diffFunc
    ∧ ¬ (properties .proxFunc ⊆ properties .diffFunc) :=
  ⟨rfl, by decide⟩

/-- C6 amended: specialize raises exactly when the target class differs from
the objects class and either the target property set is a proper subset of
the objects (the guard), or the target constructor itself raises (functional
kinds with codomain exceeding 1; the square-operator kind with a non-square
shape); when it does not raise, the result is of the target kind. -/
theorem c6_specialize_guard_amended (c t : OpCls) (sh : Shape) :
    ((∃ e, specializeCls c sh t = Except.error e) ↔
      (t ≠ c ∧ (properties t ⊂ properties c
        ∨ (funcLike t = true ∧ 1 < sh.codom)
        ∨ (t = OpCls.unitOp ∧ sh.dom ≠ some sh.codom))))
    ∧ (specializeCls c sh t = Except.ok t ∨ ∃ e, specializeCls c sh t = Except.error e) := by
  unfold specializeCls
  split_ifs with h1 h2 h3 h4 <;> constructor <;> simp_all

/-- C7: the product of a ProxFunc with a UnitOp is an operator of class Func,
not ProxFunc (the source discards the value of f.specialize), although its
bound prox does follow the documented composition: at input (1 2) with tau 3
it equals the adjoint of the prox of the applied input, the vector (3 6). -/
theorem c7_proxfunc_mul_unitop_returns_func :
    (mulOpV P7 U7).toOption.map PyOp.cls = some OpCls.func
    ∧ OpCls.func ≠ OpCls.proxFunc
    ∧ proxAt (mulOpV P7 U7) [1, 2] 3
        = pvBindArr (getattr1 U7 PName.apply [1, 2])
            (fun bx => pvBindArr ((P7.proxM.getD (fun _ _ => PyVal.exc "missing")) bx 3)
              (getattr1 U7 PName.adjoint))
    ∧ proxAt (mulOpV P7 U7) [1, 2] 3 = PyVal.arr [3, 6] := by
  refine ⟨rfl, by decide, rfl, ?_⟩
  show PyVal.arr (swapAct (List.map (· * 3) (swapAct [1, 2]))) = PyVal.arr [3, 6]
  norm_num [swapAct]

/-- C8: argshift is not invertible pointwise over all base kinds because it is
not even total: shifting a ProxFunc of shape (1,2) by a length-2 vector raises
ValueError at the final squeeze (the inherited Map.squeeze tries to specialize
the ProxFunc result down to Func).  Shifting a plain Map succeeds. -/
theorem c8_argshift_raises_on_proxfunc :
    argshiftCls .proxFunc ⟨1, some 2⟩ 2 = Except.error "Cannot specialize"
    ∧ argshiftCls .map ⟨2, some 2⟩ 2 = Except.ok (.map, ⟨2, some 2⟩) :=
  ⟨rfl, rfl⟩

/-- C9 counterexample: raising the operator A9 to the power 1 returns the very
operand (the identity tag is unchanged), not a newly synthesized instance:
the loop in the power method runs zero times and hands back self. -/
theorem c9_pow_one_returns_operand :
    powI 100 A9 1 = Except.ok A9 ∧ A9.ident = 0 :=
  ⟨rfl, rfl⟩

/-- C9 amended: every combinator that returns at all returns an instance
carrying the freshly allocated identity tag, hence a new object distinct from
any operand tagged differently: shown for the sum, the product, scalar
multiplication (to which unary negation and division by a real delegate),
the domain shift and the domain rescale; operand records are immutable values
of the model, matching the source, which only ever setattrs on the freshly
constructed out_op.  The power of exponent 1, however, returns the operand
itself; the power of exponent 2 is one application of the multiplication rule
with the left factor the base operator, and each further exponent adds one
more left-multiplication by the base operator. -/
theorem c9_pow_amended :
    (∀ (A : OpI) (base : Nat), powI base A 1 = Except.ok A)
    ∧ (∀ (A : OpI) (base : Nat), powI base A 2 = mulI (base + 1) A A)
    ∧ (∀ (A B : OpI) (fresh : Nat),
        (mulI fresh A B).toOption.elim True (fun r => r.ident = fresh))
    ∧ (∀ (A B : OpI) (fresh : Nat),
        (addI fresh A B).toOption.elim True (fun r => r.ident = fresh))
    ∧ (∀ (A : OpI) (hTag outTag : Nat) (s : ℚ),
        (scalarMulI hTag outTag s A).toOption.elim True (fun r => r.ident = outTag))
    ∧ (∀ (A : OpI) (hTag outTag : Nat),
        (negI hTag outTag A).toOption.elim True (fun r => r.ident = outTag))
    ∧ (∀ (A : OpI) (hTag outTag : Nat) (s : ℚ),
        (divI hTag outTag s A).toOption.elim True (fun r => r.ident = outTag))
    ∧ (∀ (A : OpI) (fresh vsize : Nat),
        (argshiftI fresh A vsize).toOption.elim True (fun r => r.ident = fresh))
    ∧ (∀ (A : OpI) (hTag outTag : Nat),
        (argscaleI hTag outTag A).toOption.elim True (fun r => r.ident = outTag))
    ∧ (∀ (A : OpI) (base n : Nat), powI base A (n + 2) =
        match powI base A (n + 1) with
        | .error e => .error e
        | .ok e => mulI (base + n + 1) A e) := by
  have hmul : ∀ (A B : OpI) (fresh : Nat),
      (mulI fresh A B).toOption.elim True (fun r => r.ident = fresh) := by
    intro A B fresh
    unfold mulI
    rcases h : mulCls A.cls A.shape B.cls B.shape with e | pair
    · simp [Except.toOption]
    · simp [Except.toOption]
  refine ⟨fun A base => rfl, fun A base => rfl, hmul, ?_, ?_, ?_, ?_, ?_, ?_,
    fun A base n => rfl⟩
  · intro A B fresh
    unfold addI
    rcases h : addCls A.cls A.shape B.cls B.shape with e | pair
    · simp [Except.toOption]
    · simp [Except.toOption]
  · intro A hTag outTag s
    exact hmul (homothetyI hTag A.shape.codom) A outTag
  · intro A hTag outTag
    exact hmul (homothetyI hTag A.shape.codom) A outTag
  · intro A hTag outTag s
    exact hmul (homothetyI hTag A.shape.codom) A outTag
  · intro A fresh vsize
    unfold argshiftI
    rcases h : argshiftCls A.cls A.shape vsize with e | pair
    · simp [Except.toOption]
    · simp [Except.toOption]
  · intro A hTag outTag
    unfold argscaleI
    rcases h : A.shape.dom with _ | n
    · simp [Except.toOption]
    · exact hmul A (homothetyI hTag n) outTag

/-- C10: the jacobian of a linear operator is the operator itself, for every
evaluation point, hence independent of the point: the method body of the
LinOp jacobian is exactly return self. -/
theorem c10_linop_jacobian_self :
    ∀ (A : PyOp) (x y : List ℚ),
      jacobianLinOp A x = A ∧ jacobianLinOp A x = jacobianLinOp A y :=
  fun _ _ _ => ⟨rfl, rfl⟩

end Pycsou
